import Mathlib

/-!
Shallow embedding of the LinkedIn job scraper (src/linkedin_scraper.py) and
proofs about its navigation builder, record extractor, pagination controller,
session cache and result aggregation.

Modelling conventions:
* Selenium element lookups that can raise NoSuchElementException are modelled
  as Option-valued fields of a Card; element reads (get_attribute, .text) that
  can raise (e.g. stale element) are modelled as Except Unit values recorded in
  the card.  A Card is the oracle describing how the DOM behaves for one
  listing container.
* The st.cache_resource decorator on get_driver memoizes its return value,
  None included; the cache cell is modelled explicitly.  driver.quit kills the
  session of a driver id but does not touch the cache cell, exactly as in the
  source.
* Remote commands on a quit driver raise WebDriverException; this is modelled
  by the dead-id list in SessionState.
-/

/-- Time-range selector options (source lines 37-49). -/
inductive TimeRange
  | day
  | week
  | month
  | any
deriving Repr

/-- The time_range_param mapping of source lines 44-49: each UI option maps to
the LinkedIn f_TPR token, the Any Time option to the empty string. -/
def time_range_param : TimeRange → String
  | .day   => "r86400"
  | .week  => "r604800"
  | .month => "r2592000"
  | .any   => ""

/-- Space encoding applied to keywords and location (source lines 91-92). -/
def encodeSpaces (s : String) : String := s.replace " " "%20"

/-- Base search URL (source line 93). -/
def base_url : String := "https://www.linkedin.com/jobs/search"

/-- URL construction of source lines 90-98: the time parameter is appended as
an f_TPR query parameter exactly when it is a non-empty string (Python string
truthiness). -/
def buildLink (job_title location time_param : String) : String :=
  let location_param := encodeSpaces location
  let job_param := encodeSpaces job_title
  if time_param.isEmpty then
    base_url ++ "?keywords=" ++ job_param ++ "&location=" ++ location_param
  else
    base_url ++ "?keywords=" ++ job_param ++ "&location=" ++ location_param
      ++ "&f_TPR=" ++ time_param

/-- Substring occurrence: t occurs contiguously inside s. -/
def ContainsSub (s t : String) : Prop := ∃ a b, s = a ++ t ++ b

/-- The primary anchor element of a card (a.job-card-list__title): reading its
href attribute or its text may each raise (stale element); get_attribute
returns none when the attribute is absent. -/
structure AnchorEl where
  href : Except Unit (Option String)
  text : Except Unit String

/-- Oracle for one listing container (job-search-card), recording the outcome
of each selenium operation the extractor performs on it.  findAnchor is none
when the a.job-card-list__title lookup raises NoSuchElementException.
companyText and locationText bundle lookup plus text read, both of which the
source covers with a single bare except. -/
structure Card where
  findAnchor : Option AnchorEl
  companyText : Except Unit String
  locationText : Except Unit String

/-- The four parallel accumulator lists of source lines 85-88. -/
structure ExtractState where
  job_urls : List (Option String)
  job_titles_list : List String
  company_names : List String
  locations_list : List String
deriving Repr

def emptyExtract : ExtractState := ⟨[], [], [], []⟩

/-- Per-card extraction, source lines 136-160.  The anchor lookup and the href
read precede the url append; the title text read happens after the url append,
and its failure escapes to the per-card handler (continue), leaving the url
already appended.  Company and location are each guarded by their own bare
except that substitutes "N/A". -/
def processCard (s : ExtractState) (c : Card) : ExtractState :=
  match c.findAnchor with
  | none => s
  | some a =>
    match a.href with
    | .error _ => s
    | .ok u =>
      let s1 : ExtractState :=
        ⟨s.job_urls ++ [u], s.job_titles_list, s.company_names, s.locations_list⟩
      match a.text with
      | .error _ => s1
      | .ok ti =>
        let comp := match c.companyText with
          | .ok v => v
          | .error _ => "N/A"
        let loca := match c.locationText with
          | .ok v => v
          | .error _ => "N/A"
        ⟨s1.job_urls, s1.job_titles_list ++ [ti],
          s1.company_names ++ [comp], s1.locations_list ++ [loca]⟩

/-- The card loop of source lines 136-160 over a batch of containers. -/
def extractCards (cards : List Card) : ExtractState :=
  cards.foldl processCard emptyExtract

/-- A card that yields a complete record: anchor located, href and text reads
both succeed. -/
def emits (c : Card) : Bool :=
  match c.findAnchor with
  | none => false
  | some a =>
    (match a.href with | .ok _ => true | .error _ => false) &&
    (match a.text with | .ok _ => true | .error _ => false)

/-- A card that cannot break list alignment: it never succeeds on the href
read and then fails on the title text read. -/
def cardClean (c : Card) : Bool :=
  match c.findAnchor with
  | none => true
  | some a =>
    match a.href, a.text with
    | .ok _, .error _ => false
    | _, _ => true

/-- Whether a stored url value is a non-empty string. -/
def urlNonempty : Option String → Bool
  | some s => !s.isEmpty
  | none => false

/-- The st.cache_resource cell plus driver bookkeeping.  cache is none while
get_driver has never returned; some v caches v, where v itself is none when
webdriver.Chrome raised (the source catches the exception and returns None,
and that None return is cached).  dead lists driver ids whose session was
quit: remote commands on them raise WebDriverException. -/
structure SessionState where
  cache : Option (Option Nat)
  nextId : Nat
  dead : List Nat
deriving Repr

def initialSession : SessionState := ⟨none, 0, []⟩

/-- get_driver, source lines 62-77, including the st.cache_resource memoization:
a populated cache cell is returned as-is (even if the cached driver has since
been quit); on a cache miss a driver is constructed unless initFails, in which
case None is produced and cached. -/
def get_driver (initFails : Bool) (s : SessionState) : Option Nat × SessionState :=
  match s.cache with
  | some v => (v, s)
  | none =>
    if initFails then
      (none, ⟨some none, s.nextId, s.dead⟩)
    else
      (some s.nextId, ⟨some (some s.nextId), s.nextId + 1, s.dead⟩)

/-- A driver id is alive when its session has not been quit. -/
def aliveD (s : SessionState) (d : Nat) : Bool := !(s.dead.contains d)

/-- Per-query environment oracle: whether the initial driver.get raises, which
rounds raise a transport fault (WebDriverException) in the scroll step, and
which job cards find_elements returns after pagination. -/
structure QueryEnv where
  navFails : Bool
  faultAt : Nat → Bool
  cards : List Card

/-- Observable trace of one scrape call: driver.get invocations on the query
URL, how many of them completed without raising, how many times the
WebDriverException recovery handler ran, the round indices entered by the
pagination loop, and whether an exception escaped to the outer handler. -/
structure PagTrace where
  navCalls : Nat
  navOks : Nat
  recoveries : Nat
  rounds : List Nat
  aborted : Bool
deriving Repr

def emptyTrace : PagTrace := ⟨0, 0, 0, [], false⟩

/-- The pagination loop of source lines 107-131, processing rounds
i, i+1, ... while fuel lasts.  A transport fault in the round body enters the
recovery handler: driver.quit kills the session, get_driver is re-invoked (and,
being memoized, hands back the cached driver), then driver.get re-navigates;
if that driver is dead the re-navigation raises inside the handler and the
exception escapes the loop (aborted).  Returns the current driver id, session
state and trace. -/
def runRounds (initFails : Bool) (qe : QueryEnv) :
    Nat → Nat → Nat → SessionState → PagTrace → Nat × SessionState × PagTrace
  | 0, _, d, s, t => (d, s, t)
  | fuel + 1, i, d, s, t =>
    let t1 : PagTrace := ⟨t.navCalls, t.navOks, t.recoveries, t.rounds ++ [i], t.aborted⟩
    if qe.faultAt i || !(aliveD s d) then
      let s1 : SessionState := ⟨s.cache, s.nextId, d :: s.dead⟩
      match get_driver initFails s1 with
      | (none, s2) =>
        (d, s2, ⟨t1.navCalls, t1.navOks, t1.recoveries + 1, t1.rounds, true⟩)
      | (some d2, s2) =>
        if aliveD s2 d2 then
          runRounds initFails qe fuel (i + 1) d2 s2
            ⟨t1.navCalls + 1, t1.navOks + 1, t1.recoveries + 1, t1.rounds, t1.aborted⟩
        else
          (d2, s2, ⟨t1.navCalls + 1, t1.navOks, t1.recoveries + 1, t1.rounds, true⟩)
    else
      runRounds initFails qe fuel (i + 1) d s t1

/-- The body of the outer try of source lines 100-160: initial navigation,
pagination, then extraction.  The first component is some () when an exception
escaped the body into the outer handler of line 162; the second is the state
of the four accumulator lists at that moment. -/
def scrapeTryBody (initFails : Bool) (qe : QueryEnv) (d : Nat) (s : SessionState)
    (n : Nat) : Option Unit × ExtractState × SessionState × PagTrace :=
  if qe.navFails || !(aliveD s d) then
    (some (), emptyExtract, s, ⟨1, 0, 0, [], true⟩)
  else
    match runRounds initFails qe n 0 d s ⟨1, 1, 0, [], false⟩ with
    | (_, s2, t) =>
      if t.aborted then
        (some (), emptyExtract, s2, t)
      else
        (none, extractCards qe.cards, s2, t)

/-- Return value of scrape_linkedin_jobs: the early return [] of line 83 when
get_driver produced None, or the results dictionary of lines 169-176. -/
inductive ScrapeRet
  | emptyList
  | results (jobTitles companies locations : List String) (jobUrls : List (Option String))
deriving Repr

/-- Build the results dictionary of source lines 169-176 from the accumulator
lists. -/
def mkResults (st : ExtractState) : ScrapeRet :=
  .results st.job_titles_list st.company_names st.locations_list st.job_urls

/-- scrape_linkedin_jobs, source lines 80-176.  The outer except Exception of
line 162 absorbs anything the try body raised, after which the function still
builds and returns the results dictionary from whatever the lists hold. -/
def scrape (initFails : Bool) (qe : QueryEnv) (s0 : SessionState) (n : Nat) :
    ScrapeRet × SessionState × PagTrace :=
  match get_driver initFails s0 with
  | (none, s1) => (.emptyList, s1, emptyTrace)
  | (some d, s1) =>
    match scrapeTryBody initFails qe d s1 n with
    | (_, st, s2, t) => (mkResults st, s2, t)

/-- One row of the aggregated DataFrame: the four scraped columns plus the
Search Term column added at source line 209. -/
structure Record where
  title : String
  company : String
  location : String
  url : Option String
  searchTerm : String
deriving Repr

/-- Row-wise view of the four parallel columns, tagged with the search term. -/
def zip4 : List String → List String → List String → List (Option String) →
    String → List Record
  | t :: ts, c :: cs, l :: ls, u :: us, term =>
    ⟨t, c, l, u, term⟩ :: zip4 ts cs ls us term
  | _, _, _, _, _ => []

/-- pd.DataFrame(job_data) plus the Search Term column (source lines 206-209):
constructing a DataFrame from a dict of lists raises ValueError when the lists
have different lengths. -/
def dataFrame (term : String) (jobTitles companies locations : List String)
    (jobUrls : List (Option String)) : Except Unit (List Record) :=
  if jobTitles.length == companies.length &&
     jobTitles.length == locations.length &&
     jobTitles.length == jobUrls.length then
    .ok (zip4 jobTitles companies locations jobUrls term)
  else
    .error ()

/-- Result of the main loop: the run either completes with the accumulated
all_results rows plus the per-query outcome list (query term, rows appended for
it; an empty row list is the warning branch of line 217), or crashes with an
uncaught exception. calls counts scrape_linkedin_jobs invocations. -/
structure MainOut where
  result : Except Unit (List Record × List (String × List Record))
  calls : Nat
  sess : SessionState

/-- Prefix one query outcome onto a main-loop result. -/
def addOutcome (o : String × List Record) :
    Except Unit (List Record × List (String × List Record)) →
    Except Unit (List Record × List (String × List Record))
  | .error e => .error e
  | .ok (recs, outs) => .ok (recs, o :: outs)

/-- The per-query loop of source lines 194-217, processing the job titles in
order with query index k, threading the cached session state and the
accumulated all_results rows. A query whose Job URL column is empty (or whose
scrape returned the bare []) takes the warning branch and contributes no rows;
otherwise the DataFrame is built, tagged and concatenated. -/
def mainLoop (initFails : Bool) (env : Nat → QueryEnv) (n : Nat) :
    List String → Nat → SessionState → List Record → MainOut
  | [], _, s, acc => ⟨.ok (acc, []), 0, s⟩
  | q :: qs, k, s, acc =>
    match scrape initFails (env k) s n with
    | (.emptyList, s1, _) =>
      let r := mainLoop initFails env n qs (k + 1) s1 acc
      ⟨addOutcome (q, []) r.result, r.calls + 1, r.sess⟩
    | (.results jobTitles companies locations jobUrls, s1, _) =>
      if jobUrls.isEmpty then
        let r := mainLoop initFails env n qs (k + 1) s1 acc
        ⟨addOutcome (q, []) r.result, r.calls + 1, r.sess⟩
      else
        match dataFrame q jobTitles companies locations jobUrls with
        | .error e => ⟨.error e, 1, s1⟩
        | .ok recs =>
          let r := mainLoop initFails env n qs (k + 1) s1 (acc ++ recs)
          ⟨addOutcome (q, recs) r.result, r.calls + 1, r.sess⟩

/-- Python str.split on a comma: cut the character stream at every comma,
keeping empty pieces. -/
def splitCommaAux : List Char → List Char → List (List Char)
  | [], cur => [cur.reverse]
  | ch :: rest, cur =>
    if ch = ',' then cur.reverse :: splitCommaAux rest []
    else splitCommaAux rest (ch :: cur)

def splitCommas (s : String) : List String :=
  (splitCommaAux s.data []).map List.asString

/-- Python str.strip: drop whitespace from both ends. -/
def stripStr (s : String) : String :=
  (((s.data.dropWhile Char.isWhitespace).reverse.dropWhile Char.isWhitespace).reverse).asString

/-- The main app logic of source lines 186-217: split the raw comma-separated
job-titles input (line 187), strip each component, then run the per-query loop
starting from a fresh process (empty cache, no accumulated rows). -/
def mainApp (initFails : Bool) (env : Nat → QueryEnv) (n : Nat) (raw : String) :
    MainOut :=
  mainLoop initFails env n ((splitCommas raw).map stripStr) 0 initialSession []

/-! ### Concrete cards used as witnesses and counterexamples -/

/-- A fully extractable card. -/
def cardFullRecord : Card :=
  ⟨some ⟨.ok (some "https://jobs/1"), .ok "T1"⟩, .ok "C1", .ok "L1"⟩

/-- Anchor located and href read fine, but the title text read raises
(e.g. stale element). -/
def cardTextRaises : Card := ⟨some ⟨.ok (some "u"), .error ()⟩, .ok "C", .ok "L"⟩

/-- Anchor located but carrying no href attribute: get_attribute returns
None. -/
def cardNoHref : Card := ⟨some ⟨.ok none, .ok "T"⟩, .ok "C", .ok "L"⟩

/-- The a.job-card-list__title lookup fails. -/
def cardNoAnchor : Card := ⟨none, .ok "C", .ok "L"⟩

/-- Company lookup fails, everything else extracts. -/
def cardNoCompany : Card :=
  ⟨some ⟨.ok (some "https://jobs/2"), .ok "T2"⟩, .error (), .ok "L2"⟩

/-- Location lookup fails, everything else extracts. -/
def cardNoLocation : Card :=
  ⟨some ⟨.ok (some "https://jobs/3"), .ok "T3"⟩, .ok "C3", .error ()⟩

/-! ### Extraction lemmas -/

lemma processCard_noAnchor (s : ExtractState) (c : Card)
    (h : c.findAnchor = none) : processCard s c = s := by
  simp [processCard, h]

lemma processCard_emits (c : Card) (h : emits c = true) (s : ExtractState) :
    (processCard s c).job_urls.length = s.job_urls.length + 1 ∧
    (processCard s c).job_titles_list.length = s.job_titles_list.length + 1 ∧
    (processCard s c).company_names.length = s.company_names.length + 1 ∧
    (processCard s c).locations_list.length = s.locations_list.length + 1 := by
  rcases c with ⟨fa, ct, lt⟩
  cases fa with
  | none => simp [emits] at h
  | some a =>
    rcases a with ⟨hr, tx⟩
    cases hr with
    | error e => simp [emits] at h
    | ok u =>
      cases tx with
      | error e => simp [emits] at h
      | ok ti => simp [processCard]

lemma foldl_emits_len (l : List Card) :
    (∀ c ∈ l, emits c = true) → ∀ s : ExtractState,
    (l.foldl processCard s).job_urls.length = s.job_urls.length + l.length ∧
    (l.foldl processCard s).job_titles_list.length = s.job_titles_list.length + l.length ∧
    (l.foldl processCard s).company_names.length = s.company_names.length + l.length ∧
    (l.foldl processCard s).locations_list.length = s.locations_list.length + l.length := by
  induction l with
  | nil => intro h s; simp
  | cons c cs ih =>
    intro h s
    have hc : emits c = true := h c (List.mem_cons_self c cs)
    have hcs : ∀ x ∈ cs, emits x = true := fun x hx => h x (List.mem_cons_of_mem c hx)
    obtain ⟨p1, p2, p3, p4⟩ := processCard_emits c hc s
    obtain ⟨r1, r2, r3, r4⟩ := ih hcs (processCard s c)
    simp only [List.foldl_cons, List.length_cons] at r1 r2 r3 r4 ⊢
    exact ⟨by omega, by omega, by omega, by omega⟩

/-- C2: for a container whose primary anchor (url/title) element is located
and read successfully, a failed company lookup yields company "N/A" while url,
title and location keep their extracted values; symmetrically a failed
location lookup yields location "N/A" without touching the other fields.  In
both cases the record is appended, never discarded. -/
theorem C2_secondary_field_isolation :
    (∀ (s : ExtractState) (c : Card) (a : AnchorEl) (u : Option String)
       (ti lo : String),
       c.findAnchor = some a → a.href = .ok u → a.text = .ok ti →
       c.companyText = .error () → c.locationText = .ok lo →
       processCard s c =
         ⟨s.job_urls ++ [u], s.job_titles_list ++ [ti],
          s.company_names ++ ["N/A"], s.locations_list ++ [lo]⟩) ∧
    (∀ (s : ExtractState) (c : Card) (a : AnchorEl) (u : Option String)
       (ti co : String),
       c.findAnchor = some a → a.href = .ok u → a.text = .ok ti →
       c.companyText = .ok co → c.locationText = .error () →
       processCard s c =
         ⟨s.job_urls ++ [u], s.job_titles_list ++ [ti],
          s.company_names ++ [co], s.locations_list ++ ["N/A"]⟩) := by
  constructor
  · intro s c a u ti lo h1 h2 h3 h4 h5
    simp [processCard, h1, h2, h3, h4, h5]
  · intro s c a u ti co h1 h2 h3 h4 h5
    simp [processCard, h1, h2, h3, h4, h5]

/-- Witness for C2 on concrete cards. -/
theorem C2_secondary_field_isolation_witness :
    processCard emptyExtract cardNoCompany =
      ⟨[some "https://jobs/2"], ["T2"], ["N/A"], ["L2"]⟩ ∧
    processCard emptyExtract cardNoLocation =
      ⟨[some "https://jobs/3"], ["T3"], ["C3"], ["N/A"]⟩ := by
  constructor
  · exact C2_secondary_field_isolation.1 emptyExtract cardNoCompany
      ⟨.ok (some "https://jobs/2"), .ok "T2"⟩ (some "https://jobs/2") "T2" "L2"
      rfl rfl rfl rfl rfl
  · exact C2_secondary_field_isolation.2 emptyExtract cardNoLocation
      ⟨.ok (some "https://jobs/3"), .ok "T3"⟩ (some "https://jobs/3") "T3" "C3"
      rfl rfl rfl rfl rfl

/-- C9: the per-container all-or-nothing property fails.  On a container whose
anchor is located and href read succeeds but whose title text read raises, the
code has already appended to job_urls when the per-card handler fires: only
job_urls grows, the other three lists do not, so the four lists end with
unequal lengths and the downstream pd.DataFrame construction of line 206
raises. -/
theorem C9_partial_append_breaks_alignment :
    extractCards [cardTextRaises] = ⟨[some "u"], [], [], []⟩ ∧
    (extractCards [cardTextRaises]).job_urls.length = 1 ∧
    (extractCards [cardTextRaises]).job_titles_list.length = 0 ∧
    dataFrame "Data Scientist"
      (extractCards [cardTextRaises]).job_titles_list
      (extractCards [cardTextRaises]).company_names
      (extractCards [cardTextRaises]).locations_list
      (extractCards [cardTextRaises]).job_urls = .error () :=
  ⟨rfl, rfl, rfl, rfl⟩

/-- C6: a container whose primary anchor element cannot be located yields no
record and leaves no partial data in any output column; if every other
container in the batch yields a full record, each result column is exactly one
shorter than the number of containers scanned. -/
theorem C6_missing_anchor_skips_record (pre post : List Card) (c0 : Card)
    (h0 : c0.findAnchor = none)
    (hpre : ∀ c ∈ pre, emits c = true) (hpost : ∀ c ∈ post, emits c = true) :
    (∀ s, processCard s c0 = s) ∧
    (extractCards (pre ++ c0 :: post)).job_urls.length =
      (pre ++ c0 :: post).length - 1 ∧
    (extractCards (pre ++ c0 :: post)).job_titles_list.length =
      (pre ++ c0 :: post).length - 1 ∧
    (extractCards (pre ++ c0 :: post)).company_names.length =
      (pre ++ c0 :: post).length - 1 ∧
    (extractCards (pre ++ c0 :: post)).locations_list.length =
      (pre ++ c0 :: post).length - 1 := by
  have hskip : ∀ s, processCard s c0 = s := fun s => processCard_noAnchor s c0 h0
  refine ⟨hskip, ?_, ?_, ?_, ?_⟩ <;>
  · have hfold :
        extractCards (pre ++ c0 :: post) =
          post.foldl processCard (pre.foldl processCard emptyExtract) := by
      simp [extractCards, List.foldl_append, List.foldl_cons, hskip]
    obtain ⟨a1, a2, a3, a4⟩ := foldl_emits_len pre hpre emptyExtract
    obtain ⟨b1, b2, b3, b4⟩ :=
      foldl_emits_len post hpost (pre.foldl processCard emptyExtract)
    rw [hfold]
    simp only [List.length_append, List.length_cons]
    have e1 : emptyExtract.job_urls.length = 0 := rfl
    have e2 : emptyExtract.job_titles_list.length = 0 := rfl
    have e3 : emptyExtract.company_names.length = 0 := rfl
    have e4 : emptyExtract.locations_list.length = 0 := rfl
    omega

/-- Witness for C6: one full card, then the anchorless card. -/
theorem C6_missing_anchor_skips_record_witness :
    (∀ s, processCard s cardNoAnchor = s) ∧
    (extractCards [cardFullRecord, cardNoAnchor]).job_urls.length =
      [cardFullRecord, cardNoAnchor].length - 1 ∧
    (extractCards [cardFullRecord, cardNoAnchor]).job_titles_list.length =
      [cardFullRecord, cardNoAnchor].length - 1 ∧
    (extractCards [cardFullRecord, cardNoAnchor]).company_names.length =
      [cardFullRecord, cardNoAnchor].length - 1 ∧
    (extractCards [cardFullRecord, cardNoAnchor]).locations_list.length =
      [cardFullRecord, cardNoAnchor].length - 1 := by
  have h := C6_missing_anchor_skips_record [cardFullRecord] [] cardNoAnchor rfl
    (by decide) (by decide)
  simpa using h

/-- Environment whose single query page holds one card with an href-less
anchor. -/
def envNoHref : Nat → QueryEnv := fun _ => ⟨false, fun _ => false, [cardNoHref]⟩

/-- C3 counterexample: a container whose anchor element is located but carries
no href attribute is NOT excluded — get_attribute returns None and line 140
appends it unchecked, so the final ResultSet contains a record whose url is
not a non-empty string. -/
theorem C3_url_invariant_counterexample :
    (mainApp false envNoHref 1 "Data Scientist").result =
      .ok ([⟨"T", "C", "L", none, "Data Scientist"⟩],
           [("Data Scientist", [⟨"T", "C", "L", none, "Data Scientist"⟩])]) ∧
    urlNonempty (Record.url ⟨"T", "C", "L", none, "Data Scientist"⟩) = false :=
  ⟨rfl, rfl⟩

lemma processCard_urls (s : ExtractState) (c : Card) :
    (processCard s c).job_urls = s.job_urls ∨
    ∃ a u, c.findAnchor = some a ∧ a.href = .ok u ∧
      (processCard s c).job_urls = s.job_urls ++ [u] := by
  rcases c with ⟨fa, ct, lt⟩
  cases fa with
  | none => left; simp [processCard]
  | some a =>
    rcases a with ⟨hr, tx⟩
    cases hr with
    | error e => left; simp [processCard]
    | ok u =>
      right
      refine ⟨⟨.ok u, tx⟩, u, rfl, rfl, ?_⟩
      cases tx with
      | error e => simp [processCard]
      | ok ti => simp [processCard]

lemma foldl_urls_from_href (l : List Card) :
    ∀ (s : ExtractState) (u : Option String),
    u ∈ (l.foldl processCard s).job_urls →
    u ∈ s.job_urls ∨ ∃ c ∈ l, ∃ a, c.findAnchor = some a ∧ a.href = .ok u := by
  induction l with
  | nil => intro s u hu; exact Or.inl hu
  | cons c cs ih =>
    intro s u hu
    simp only [List.foldl_cons] at hu
    rcases ih (processCard s c) u hu with h | ⟨c', hc', a, ha, hu'⟩
    · rcases processCard_urls s c with heq | ⟨a, u0, hfa, hhr, heq⟩
      · rw [heq] at h; exact Or.inl h
      · rw [heq] at h
        rcases List.mem_append.mp h with h | h
        · exact Or.inl h
        · rcases List.mem_singleton.mp h with rfl
          exact Or.inr ⟨c, List.mem_cons_self c cs, a, hfa, hhr⟩
    · exact Or.inr ⟨c', List.mem_cons_of_mem c hc', a, ha, hu'⟩

/-- C3 amended: every url stored in the extraction result is the href value
successfully read from a located primary anchor of some scanned container
(containers whose anchor lookup or href read fails contribute nothing) — but
that href value may itself be None or empty; non-emptiness is not enforced
anywhere. -/
theorem C3_url_from_anchor_href (cards : List Card) (u : Option String) 
    (hu : u ∈ (extractCards cards).job_urls) :
    ∃ c ∈ cards, ∃ a, c.findAnchor = some a ∧ a.href = .ok u := by
  rcases foldl_urls_from_href cards emptyExtract u hu with h | h
  · simp [emptyExtract] at h
  · exact h

/-- Witness for C3 amended on a concrete batch. -/
theorem C3_url_from_anchor_href_witness :
    (some "https://jobs/1" ∈ (extractCards [cardFullRecord]).job_urls) ∧
    ∃ c ∈ [cardFullRecord], ∃ a,
      c.findAnchor = some a ∧ a.href = .ok (some "https://jobs/1") :=
  ⟨by decide, C3_url_from_anchor_href [cardFullRecord] (some "https://jobs/1")
    (by decide)⟩

/-- C4: the URL builder is a pure function of the query; for every keywords
and location string the produced URL contains their space-encoded forms, the
f_TPR token r86400 / r604800 / r2592000 for the Day / Week / Month windows,
and for the Any window the URL is exactly the token-free form (no time-window
parameter is appended). -/
theorem C4_buildLink_encoding_and_token (k l : String) :
    (∀ tr : TimeRange,
       ContainsSub (buildLink k l (time_range_param tr)) (encodeSpaces k) ∧
       ContainsSub (buildLink k l (time_range_param tr)) (encodeSpaces l)) ∧
    ContainsSub (buildLink k l (time_range_param .day)) "&f_TPR=r86400" ∧
    ContainsSub (buildLink k l (time_range_param .week)) "&f_TPR=r604800" ∧
    ContainsSub (buildLink k l (time_range_param .month)) "&f_TPR=r2592000" ∧
    buildLink k l (time_range_param .any) =
      base_url ++ "?keywords=" ++ encodeSpaces k ++ "&location=" ++ encodeSpaces l := by
  refine ⟨?_, ?_, ?_, ?_, ?_⟩
  · intro tr
    cases tr with
    | day =>
      refine ⟨⟨base_url ++ "?keywords=",
        "&location=" ++ encodeSpaces l ++ "&f_TPR=" ++ "r86400", ?_⟩,
        ⟨base_url ++ "?keywords=" ++ encodeSpaces k ++ "&location=",
        "&f_TPR=" ++ "r86400", ?_⟩⟩ <;>
      simp [buildLink, time_range_param, String.append_assoc,
        show ("r86400" : String).isEmpty = false from rfl]
    | week =>
      refine ⟨⟨base_url ++ "?keywords=",
        "&location=" ++ encodeSpaces l ++ "&f_TPR=" ++ "r604800", ?_⟩,
        ⟨base_url ++ "?keywords=" ++ encodeSpaces k ++ "&location=",
        "&f_TPR=" ++ "r604800", ?_⟩⟩ <;>
      simp [buildLink, time_range_param, String.append_assoc,
        show ("r604800" : String).isEmpty = false from rfl]
    | month =>
      refine ⟨⟨base_url ++ "?keywords=",
        "&location=" ++ encodeSpaces l ++ "&f_TPR=" ++ "r2592000", ?_⟩,
        ⟨base_url ++ "?keywords=" ++ encodeSpaces k ++ "&location=",
        "&f_TPR=" ++ "r2592000", ?_⟩⟩ <;>
      simp [buildLink, time_range_param, String.append_assoc,
        show ("r2592000" : String).isEmpty = false from rfl]
    | any =>
      refine ⟨⟨base_url ++ "?keywords=", "&location=" ++ encodeSpaces l, ?_⟩,
        ⟨base_url ++ "?keywords=" ++ encodeSpaces k ++ "&location=",
        "", ?_⟩⟩ <;>
      simp [buildLink, time_range_param, String.append_assoc, String.append_empty,
        show ("" : String).isEmpty = true from rfl]
  · refine ⟨base_url ++ "?keywords=" ++ encodeSpaces k ++ "&location=" ++
      encodeSpaces l, "", ?_⟩
    simp [buildLink, time_range_param, String.append_assoc, String.append_empty,
      show ("r86400" : String).isEmpty = false from rfl]
  · refine ⟨base_url ++ "?keywords=" ++ encodeSpaces k ++ "&location=" ++
      encodeSpaces l, "", ?_⟩
    simp [buildLink, time_range_param, String.append_assoc, String.append_empty,
      show ("r604800" : String).isEmpty = false from rfl]
  · refine ⟨base_url ++ "?keywords=" ++ encodeSpaces k ++ "&location=" ++
      encodeSpaces l, "", ?_⟩
    simp [buildLink, time_range_param, String.append_assoc, String.append_empty,
      show ("r2592000" : String).isEmpty = false from rfl]
  · simp [buildLink, time_range_param, show ("" : String).isEmpty = true from rfl]

lemma runRounds_rounds (initF : Bool) (qe : QueryEnv) :
    ∀ (fuel i d : Nat) (s : SessionState) (t : PagTrace),
    ∃ j, j ≤ fuel ∧
      (runRounds initF qe fuel i d s t).2.2.rounds = t.rounds ++ List.range' i j := by
  intro fuel
  induction fuel with
  | zero =>
    intro i d s t
    exact ⟨0, Nat.le_refl 0, by simp [runRounds]⟩
  | succ fuel ih =>
    intro i d s t
    simp only [runRounds]
    split
    · split
      · exact ⟨1, by omega, by simp⟩
      · rename_i d2 s2 heq
        split
        · obtain ⟨j, hj, hr⟩ := ih (i + 1) d2 s2
            ⟨t.navCalls + 1, t.navOks + 1, t.recoveries + 1, t.rounds ++ [i], t.aborted⟩
          refine ⟨j + 1, by omega, ?_⟩
          rw [hr, List.range'_succ]
          simp
        · exact ⟨1, by omega, by simp⟩
    · obtain ⟨j, hj, hr⟩ := ih (i + 1) d s
        ⟨t.navCalls, t.navOks, t.recoveries, t.rounds ++ [i], t.aborted⟩
      refine ⟨j + 1, by omega, ?_⟩
      rw [hr, List.range'_succ]
      simp

lemma scrape_rounds (initF : Bool) (qe : QueryEnv) (s0 : SessionState) (n : Nat) :
    ∃ j, j ≤ n ∧ (scrape initF qe s0 n).2.2.rounds = List.range j := by
  rcases hg : get_driver initF s0 with ⟨dOpt, s1⟩
  cases dOpt with
  | none => exact ⟨0, Nat.zero_le n, by simp [scrape, hg, emptyTrace]⟩
  | some d =>
    by_cases hnav : (qe.navFails || !(aliveD s1 d)) = true
    · exact ⟨0, Nat.zero_le n, by simp [scrape, hg, scrapeTryBody, hnav]⟩
    · obtain ⟨j, hj, hr⟩ := runRounds_rounds initF qe n 0 d s1 ⟨1, 1, 0, [], false⟩
      rcases hrr : runRounds initF qe n 0 d s1 ⟨1, 1, 0, [], false⟩ with ⟨d2, s2, t⟩
      rw [hrr] at hr
      refine ⟨j, hj, ?_⟩
      rw [List.range_eq_range']
      simp only [scrape, hg, scrapeTryBody, hnav, Bool.not_eq_true, if_neg, hrr]
      simp at hr
      split <;> simpa using hr

/-- C5: for every round budget n ≥ 1 and every fault pattern, the pagination
loop enters the rounds 0, 1, ..., k-1 for some k ≤ n: it runs at most n
rounds, terminates, and the sequence of entered round indices is strictly
increasing and bounded by n. -/
theorem C5_pagination_bounded (initF : Bool) (qe : QueryEnv) (s0 : SessionState)
    (n : Nat) (h : 1 ≤ n) :
    ∃ k, k ≤ n ∧ (scrape initF qe s0 n).2.2.rounds = List.range k ∧
      (scrape initF qe s0 n).2.2.rounds.length ≤ n ∧
      List.Pairwise (fun a b => a < b) (scrape initF qe s0 n).2.2.rounds ∧
      ∀ r ∈ (scrape initF qe s0 n).2.2.rounds, r < n := by
  obtain ⟨j, hj, hr⟩ := scrape_rounds initF qe s0 n
  refine ⟨j, hj, hr, ?_, ?_, ?_⟩
  · rw [hr]; simpa using hj
  · rw [hr]; exact List.pairwise_lt_range j
  · intro r hrm
    rw [hr] at hrm
    exact lt_of_lt_of_le (List.mem_range.mp hrm) hj

/-- Query environment with a transport fault in the first pagination round and
one fully extractable job card on the page. -/
def qeFaultRound0 : QueryEnv := ⟨false, fun i => i == 0, [cardFullRecord]⟩

/-- Witness for C5 at n = 2 with a transport fault in round 0. -/
theorem C5_pagination_bounded_witness :
    1 ≤ 2 ∧
    ∃ k, k ≤ 2 ∧
      (scrape false qeFaultRound0 initialSession 2).2.2.rounds = List.range k ∧
      (scrape false qeFaultRound0 initialSession 2).2.2.rounds.length ≤ 2 ∧
      List.Pairwise (fun a b => a < b)
        (scrape false qeFaultRound0 initialSession 2).2.2.rounds ∧
      ∀ r ∈ (scrape false qeFaultRound0 initialSession 2).2.2.rounds, r < 2 :=
  ⟨by decide, C5_pagination_bounded false qeFaultRound0 initialSession 2 (by decide)⟩

/-- C1: what actually happens on a transport fault.  With a fault in round 0
of 2 and one extractable card, the recovery path quits the driver and calls
the memoized get_driver, which returns the SAME driver (id 0, now dead and
still cached); the re-navigation on it raises, so the query aborts: only one
navigation ever succeeds (navOks = 1, not 1 + recoveries), round 1 is never
entered (rounds = [0]), no fresh session exists (the cache still holds id 0,
which is dead), and the function returns zero records despite the page
holding a card. -/
theorem C1_recovery_gets_cached_dead_session :
    scrape false qeFaultRound0 initialSession 2 =
      (mkResults emptyExtract, ⟨some (some 0), 1, [0]⟩, ⟨2, 1, 1, [0], true⟩) ∧
    aliveD ⟨some (some 0), 1, [0]⟩ 0 = false ∧
    qeFaultRound0.cards = [cardFullRecord] :=
  ⟨rfl, rfl, rfl⟩

lemma scrape_shape (initF : Bool) (qe : QueryEnv) (s0 : SessionState) (n : Nat) :
    ∃ s' t, scrape initF qe s0 n = (.emptyList, s', t) ∨
      (t.aborted = true ∧ scrape initF qe s0 n = (mkResults emptyExtract, s', t)) ∨
      (t.aborted = false ∧
        scrape initF qe s0 n = (mkResults (extractCards qe.cards), s', t)) := by
  rcases hg : get_driver initF s0 with ⟨dOpt, s1⟩
  cases dOpt with
  | none => exact ⟨s1, emptyTrace, Or.inl (by simp [scrape, hg])⟩
  | some d =>
    by_cases hnav : (qe.navFails || !(aliveD s1 d)) = true
    · refine ⟨s1, ⟨1, 0, 0, [], true⟩, Or.inr (Or.inl ⟨rfl, ?_⟩)⟩
      simp [scrape, hg, scrapeTryBody, hnav]
    · rcases hrr : runRounds initF qe n 0 d s1 ⟨1, 1, 0, [], false⟩ with ⟨d2, s2, t⟩
      cases hab : t.aborted with
      | true =>
        refine ⟨s2, t, Or.inr (Or.inl ⟨hab, ?_⟩)⟩
        simp [scrape, hg, scrapeTryBody, hnav, hrr, hab]
      | false =>
        refine ⟨s2, t, Or.inr (Or.inr ⟨hab, ?_⟩)⟩
        simp [scrape, hg, scrapeTryBody, hnav, hrr, hab]

/-- C10: scrape_linkedin_jobs never propagates an exception: every run returns
normally with either the bare empty list (driver construction failed), or the
results dictionary holding exactly the records accumulated before an escaped
fault (necessarily zero, since every escaping fault precedes extraction), or
the full extraction of the page's cards. -/
theorem C10_scrape_absorbs_faults (initF : Bool) (qe : QueryEnv)
    (s0 : SessionState) (n : Nat) :
    ∃ s' t, scrape initF qe s0 n = (.emptyList, s', t) ∨
      (t.aborted = true ∧ scrape initF qe s0 n = (mkResults emptyExtract, s', t)) ∨
      (t.aborted = false ∧
        scrape initF qe s0 n = (mkResults (extractCards qe.cards), s', t)) :=
  scrape_shape initF qe s0 n
lemma processCard_clean_cases (c : Card) (hc : cardClean c = true) (s : ExtractState) :
    processCard s c = s ∨
    ∃ u ti co lo, processCard s c =
      ⟨s.job_urls ++ [u], s.job_titles_list ++ [ti],
       s.company_names ++ [co], s.locations_list ++ [lo]⟩ := by
  rcases c with ⟨fa, ct, lt⟩
  cases fa with
  | none => left; simp [processCard]
  | some a =>
    rcases a with ⟨hr, tx⟩
    cases hr with
    | error e => left; simp [processCard]
    | ok u =>
      cases tx with
      | error e => simp [cardClean] at hc
      | ok ti =>
        right
        cases ct with
        | error e =>
          cases lt with
          | error e2 => exact ⟨u, ti, "N/A", "N/A", by simp [processCard]⟩
          | ok lo => exact ⟨u, ti, "N/A", lo, by simp [processCard]⟩
        | ok co =>
          cases lt with
          | error e2 => exact ⟨u, ti, co, "N/A", by simp [processCard]⟩
          | ok lo => exact ⟨u, ti, co, lo, by simp [processCard]⟩

def alignedE (st : ExtractState) : Prop :=
  st.job_titles_list.length = st.job_urls.length ∧
  st.company_names.length = st.job_urls.length ∧
  st.locations_list.length = st.job_urls.length

lemma foldl_clean_aligned (l : List Card) :
    (∀ c ∈ l, cardClean c = true) →
    ∀ s, alignedE s → alignedE (l.foldl processCard s) := by
  induction l with
  | nil => intro _ s hs; exact hs
  | cons c cs ih =>
    intro h s hs
    have hc : cardClean c = true := h c (List.mem_cons_self c cs)
    have hcs : ∀ x ∈ cs, cardClean x = true := fun x hx => h x (List.mem_cons_of_mem c hx)
    simp only [List.foldl_cons]
    refine ih hcs (processCard s c) ?_
    rcases processCard_clean_cases c hc s with heq | ⟨u, ti, co, lo, heq⟩
    · rw [heq]; exact hs
    · rw [heq]
      obtain ⟨h1, h2, h3⟩ := hs
      refine ⟨?_, ?_, ?_⟩ <;> simp [h1, h2, h3]

lemma extractCards_aligned (cards : List Card)
    (h : ∀ c ∈ cards, cardClean c = true) : alignedE (extractCards cards) :=
  foldl_clean_aligned cards h emptyExtract ⟨rfl, rfl, rfl⟩

lemma dataFrame_ok (term : String) (st : ExtractState) (h : alignedE st) :
    dataFrame term st.job_titles_list st.company_names st.locations_list st.job_urls =
      .ok (zip4 st.job_titles_list st.company_names st.locations_list
            st.job_urls term) := by
  obtain ⟨h1, h2, h3⟩ := h
  simp [dataFrame, h1, h2, h3]

lemma zip4_searchTerm :
    ∀ (ts cs ls : List String) (us : List (Option String)) (term : String),
    ∀ rec ∈ zip4 ts cs ls us term, rec.searchTerm = term := by
  intro ts
  induction ts with
  | nil => intro cs ls us term rec h; simp [zip4] at h
  | cons t ts ih =>
    intro cs ls us term rec h
    cases cs with
    | nil => simp [zip4] at h
    | cons c cs =>
      cases ls with
      | nil => simp [zip4] at h
      | cons l ls =>
        cases us with
        | nil => simp [zip4] at h
        | cons u us =>
          simp only [zip4, List.mem_cons] at h
          rcases h with h | h
          · rw [h]
          · exact ih cs ls us term rec h

lemma mainLoop_clean (initF : Bool) (env : Nat → QueryEnv) (n : Nat)
    (hgood : ∀ k c, c ∈ (env k).cards → cardClean c = true) :
    ∀ (titles : List String) (k : Nat) (s : SessionState) (acc : List Record),
    ∃ outs s',
      mainLoop initF env n titles k s acc =
        ⟨.ok (acc ++ (outs.map Prod.snd).flatten, outs), titles.length, s'⟩ ∧
      outs.map Prod.fst = titles ∧
      ∀ p ∈ outs, ∀ rec ∈ p.2, rec.searchTerm = p.1 := by
  intro titles
  induction titles with
  | nil =>
    intro k s acc
    exact ⟨[], s, by simp [mainLoop], rfl, by simp⟩
  | cons q qs ih =>
    intro k s acc
    obtain ⟨s1, t, hsc⟩ := scrape_shape initF (env k) s n
    rcases hsc with hsc | ⟨hab, hsc⟩ | ⟨hab, hsc⟩
    · obtain ⟨outs, s', heq, hfst, htag⟩ := ih (k + 1) s1 acc
      refine ⟨(q, []) :: outs, s', ?_, by simp [hfst], ?_⟩
      · simp [mainLoop, hsc, heq, addOutcome]
      · intro p hp rec hrec
        rcases List.mem_cons.mp hp with h | h
        · rw [h] at hrec; simp at hrec
        · exact htag p h rec hrec
    · have hsc' : scrape initF (env k) s n = (.results [] [] [] [], s1, t) := hsc
      obtain ⟨outs, s', heq, hfst, htag⟩ := ih (k + 1) s1 acc
      refine ⟨(q, []) :: outs, s', ?_, by simp [hfst], ?_⟩
      · simp [mainLoop, hsc', heq, addOutcome]
      · intro p hp rec hrec
        rcases List.mem_cons.mp hp with h | h
        · rw [h] at hrec; simp at hrec
        · exact htag p h rec hrec
    · have hal : alignedE (extractCards (env k).cards) :=
        extractCards_aligned (env k).cards (hgood k)
      have hsc' : scrape initF (env k) s n =
          (.results (extractCards (env k).cards).job_titles_list
            (extractCards (env k).cards).company_names
            (extractCards (env k).cards).locations_list
            (extractCards (env k).cards).job_urls, s1, t) := hsc
      by_cases hurls : (extractCards (env k).cards).job_urls.isEmpty = true
      · obtain ⟨outs, s', heq, hfst, htag⟩ := ih (k + 1) s1 acc
        refine ⟨(q, []) :: outs, s', ?_, by simp [hfst], ?_⟩
        · simp [mainLoop, hsc', heq, addOutcome, hurls]
        · intro p hp rec hrec
          rcases List.mem_cons.mp hp with h | h
          · rw [h] at hrec; simp at hrec
          · exact htag p h rec hrec
      · have hdf := dataFrame_ok q (extractCards (env k).cards) hal
        obtain ⟨outs, s', heq, hfst, htag⟩ := ih (k + 1) s1
          (acc ++ zip4 (extractCards (env k).cards).job_titles_list
            (extractCards (env k).cards).company_names
            (extractCards (env k).cards).locations_list
            (extractCards (env k).cards).job_urls q)
        refine ⟨(q, zip4 (extractCards (env k).cards).job_titles_list
            (extractCards (env k).cards).company_names
            (extractCards (env k).cards).locations_list
            (extractCards (env k).cards).job_urls q) :: outs, s', ?_,
          by simp [hfst], ?_⟩
        · simp [mainLoop, hsc', hurls, hdf, heq, addOutcome]
        · intro p hp rec hrec
          rcases List.mem_cons.mp hp with h | h
          · rw [h] at hrec
            simp only at hrec
            rw [h]
            exact zip4_searchTerm _ _ _ _ q rec hrec
          · exact htag p h rec hrec

/-- C8: with well-behaved cards (no partial-append container), the final
ResultSet is the in-order concatenation of the per-query record batches, each
record is tagged with its originating query's (stripped) keyword string in the
Search Term field, the outcome list covers every query in caller-supplied
order — so queries yielding zero records (empty outcome, the warning branch)
do not halt processing of subsequent queries — and nothing is deduplicated:
the result is exactly the flattening of the batches. -/
theorem C8_aggregation_order_and_tagging (initF : Bool) (env : Nat → QueryEnv)
    (n : Nat) (raw : String)
    (hgood : ∀ k c, c ∈ (env k).cards → cardClean c = true) :
    ∃ outs s',
      mainApp initF env n raw =
        ⟨.ok ((outs.map Prod.snd).flatten, outs),
         ((splitCommas raw).map stripStr).length, s'⟩ ∧
      outs.map Prod.fst = (splitCommas raw).map stripStr ∧
      ∀ p ∈ outs, ∀ rec ∈ p.2, rec.searchTerm = p.1 := by
  obtain ⟨outs, s', heq, hfst, htag⟩ :=
    mainLoop_clean initF env n hgood ((splitCommas raw).map stripStr) 0
      initialSession []
  exact ⟨outs, s', by simpa [mainApp] using heq, hfst, htag⟩

/-- Environment whose every query page holds one full card and one card with a
missing company. -/
def envTwoCards : Nat → QueryEnv :=
  fun _ => ⟨false, fun _ => false, [cardFullRecord, cardNoCompany]⟩

lemma envTwoCards_clean : ∀ k c, c ∈ (envTwoCards k).cards → cardClean c = true := by
  intro k c hc
  rcases List.mem_cons.mp hc with h | h
  · subst h; rfl
  · rw [List.mem_singleton] at h; subst h; rfl

/-- Witness for C8 on two concrete queries. -/
theorem C8_aggregation_order_and_tagging_witness :
    (∀ k c, c ∈ (envTwoCards k).cards → cardClean c = true) ∧
    ∃ outs s',
      mainApp false envTwoCards 1 "Data Scientist,ML Engineer" =
        ⟨.ok ((outs.map Prod.snd).flatten, outs),
         ((splitCommas "Data Scientist,ML Engineer").map stripStr).length, s'⟩ ∧
      outs.map Prod.fst = (splitCommas "Data Scientist,ML Engineer").map stripStr ∧
      ∀ p ∈ outs, ∀ rec ∈ p.2, rec.searchTerm = p.1 :=
  ⟨envTwoCards_clean,
   C8_aggregation_order_and_tagging false envTwoCards 1 "Data Scientist,ML Engineer"
     envTwoCards_clean⟩

/-- Environment whose query pages are all empty. -/
def envEmpty : Nat → QueryEnv := fun _ => ⟨false, fun _ => false, []⟩

/-- C7 counterexample: when the browser cannot be started for the first query
(initFails), the run is NOT halted: the second query in the input list is
still processed — scrape_linkedin_jobs is invoked for it too (calls = 2) and
it receives its own empty outcome, the loop running to completion. -/
theorem C7_subsequent_queries_still_processed :
    (mainApp true envEmpty 2 "Data Scientist, Machine Learning Engineer").calls = 2 ∧
    (mainApp true envEmpty 2 "Data Scientist, Machine Learning Engineer").result =
      .ok ([], [("Data Scientist", []), ("Machine Learning Engineer", [])]) :=
  ⟨rfl, rfl⟩

lemma mainLoop_initFail (env : Nat → QueryEnv) (n : Nat) :
    ∀ (titles : List String) (k : Nat) (s : SessionState) (acc : List Record),
    s.cache = none ∨ s.cache = some none →
    ∃ s', mainLoop true env n titles k s acc =
      ⟨.ok (acc, titles.map (fun q => (q, []))), titles.length, s'⟩ := by
  intro titles
  induction titles with
  | nil => intro k s acc _; exact ⟨s, by simp [mainLoop]⟩
  | cons q qs ih =>
    intro k s acc hc
    rcases hc with hc | hc
    · obtain ⟨s', heq⟩ := ih (k + 1) ⟨some none, s.nextId, s.dead⟩ acc (Or.inr rfl)
      refine ⟨s', ?_⟩
      simp [mainLoop, scrape, get_driver, hc, heq, addOutcome]
    · obtain ⟨s', heq⟩ := ih (k + 1) s acc (Or.inr hc)
      refine ⟨s', ?_⟩
      simp [mainLoop, scrape, get_driver, hc, heq, addOutcome]

/-- C7 amended: session-initialization failure is surfaced as an error message
and makes the initiating query yield zero records, and — because the None
result is memoized by st.cache_resource — every subsequent query also yields
zero records; but the failure is not fatal for the run: every query in the
input list is still processed in order, each producing an empty (warning)
outcome, and the loop runs to completion with an empty ResultSet. -/
theorem C7_init_failure_degrades_but_does_not_halt (env : Nat → QueryEnv)
    (n : Nat) (raw : String) :
    ∃ s', mainApp true env n raw =
      ⟨.ok ([], ((splitCommas raw).map stripStr).map (fun q => (q, []))),
       ((splitCommas raw).map stripStr).length, s'⟩ :=
  mainLoop_initFail env n ((splitCommas raw).map stripStr) 0 initialSession []
    (Or.inl rfl)
